import Mathlib

/-!
Shallow embedding of the relay/session core of hass-pyscript-jupyter
(src/hass_pyscript_kernel/shim.py): the duplex forwarder
(RelayPort.forward_data_task), the per-connection handler
(RelayPort.client_server_start.client_connected), the listener stop
(RelayPort.client_server_stop), and the discovery/coordinator parts of
kernel_run (port discovery polling, kernel_config construction, the
status-queue event loop and the final shutdown).

Modelling conventions: bytes are Nat, tasks are identified by Nat ids,
sockets by Nat or String labels, Python dicts by association lists, and
the asynchronous environment (what each reader.read call returns, whether
writer.drain raises, when cancellation is delivered) is an explicit input
trace.  Logging is observational only (spec section 6) and is not modelled.
-/

/-! ## Duplex forwarder: RelayPort.forward_data_task (shim.py lines 187-214) -/

/-- Outcome of the drain step (await writer.drain()) in one loop iteration:
it succeeds, raises a non-cancellation exception, or is cancelled. -/
inductive DrainResult
  | ok
  | err
  | cancelled
deriving DecidableEq, Repr

/-- One environment event per iteration of the forward_data_task loop:
the read returns a chunk of bytes (empty means end-of-stream) followed by
a drain result, or the read itself raises, or the read is cancelled. -/
inductive FwdStep
  | recv (bs : List Nat) (d : DrainResult)
  | readErr
  | readCancel
deriving DecidableEq, Repr

/-- How a run of forward_data_task ended: clean end-of-stream return,
return after a caught exception, CancelledError re-raised, or the trace
ran out while the loop was still going. -/
inductive FwdOutcome
  | eofDone
  | errDone
  | cancelled
  | pending
deriving DecidableEq, Repr

/-- Observable state accumulated by one forwarder run: the chunks returned
by reader.read in order, the bytes passed to writer.write in order
(flattened), and the values put on the exit queue in order. -/
structure FwdState where
  chunks : List (List Nat)
  written : List Nat
  posted : List Nat
deriving DecidableEq, Repr

/-- Initial forwarder state: nothing read, written or posted. -/
def fwd_init : FwdState := ⟨[], [], []⟩

/-- Exit codes the two forwarders of a connection are created with
(shim.py lines 140-145): c2k gets 0, k2c gets 1. -/
def c2k_exit_status : Nat := 0

/-- Exit code assigned to the kernel-to-client forwarder (shim.py line 144). -/
def k2c_exit_status : Nat := 1

/-- Embedding of RelayPort.forward_data_task (shim.py lines 187-214),
driven by a trace of environment events.  A zero-length read posts
exit_status and returns; a read or drain exception posts 1 and returns;
CancelledError is re-raised without posting; otherwise the chunk is
written in full and drained before the next read. -/
def forward_data_task (exit_status : Nat) : List FwdStep → FwdState → FwdState × FwdOutcome
  | [], s => (s, FwdOutcome.pending)
  | FwdStep.readErr :: _, s =>
      ({ s with posted := s.posted ++ [1] }, FwdOutcome.errDone)
  | FwdStep.readCancel :: _, s => (s, FwdOutcome.cancelled)
  | FwdStep.recv bs d :: rest, s =>
      let s1 : FwdState := { s with chunks := s.chunks ++ [bs] }
      if bs.isEmpty then
        ({ s1 with posted := s1.posted ++ [exit_status] }, FwdOutcome.eofDone)
      else
        let s2 : FwdState := { s1 with written := s1.written ++ bs }
        match d with
        | DrainResult.ok => forward_data_task exit_status rest s2
        | DrainResult.err =>
            ({ s2 with posted := s2.posted ++ [1] }, FwdOutcome.errDone)
        | DrainResult.cancelled => (s2, FwdOutcome.cancelled)

/-- Semantics of one reader.read(8192) call against a source stream buf
when the transport has avail+1 bytes deliverable: the chunk handed back is
the first min 8192 (avail+1) bytes (empty exactly at end-of-stream). -/
def reader_read (avail : Nat) (buf : List Nat) : List Nat × List Nat :=
  (buf.take (min 8192 (avail + 1)), buf.drop (min 8192 (avail + 1)))

/-- Trace of a clean run: the source stream buf is delivered according to
the availability schedule sched with every drain succeeding; once buf is
exhausted the next read returns the empty chunk (end-of-stream). -/
def mkCleanTrace : List Nat → List Nat → List FwdStep
  | buf, [] =>
      if buf.isEmpty then [FwdStep.recv [] DrainResult.ok] else []
  | buf, a :: rest =>
      if buf.isEmpty then [FwdStep.recv [] DrainResult.ok]
      else
        FwdStep.recv (reader_read a buf).1 DrainResult.ok ::
          mkCleanTrace (reader_read a buf).2 rest

/-! ## Session events and the per-connection handler
(RelayPort.client_server_start.client_connected, shim.py lines 107-173) -/

/-- A message on the shared status queue status_q: task_start, task_end
(payload: the task id) or a request to exit with a status code. -/
inductive Event
  | task_start (t : Nat)
  | task_end (t : Nat)
  | exit (status : Nat)
deriving DecidableEq, Repr

/-- True exactly on task_end events. -/
def is_end : Event → Bool
  | Event.task_end _ => true
  | _ => false

/-- True exactly on task_start events. -/
def is_start : Event → Bool
  | Event.task_start _ => true
  | _ => false

/-- True exactly on exit events. -/
def is_exit_ev : Event → Bool
  | Event.exit _ => true
  | _ => false

/-- The task_end event matching a task_start event (other events are kept
unchanged). -/
def end_of : Event → Event
  | Event.task_start t => Event.task_end t
  | e => e

/-- How one accepted connection plays out, seen from client_connected:
the outbound connect to the kernel succeeds and the first value read from
the private exit queue my_exit_q is first_code; or the outbound connect
raises (connection refused etc.); or the handler is cancelled while
waiting on my_exit_q. -/
inductive ConnectOutcome
  | ok (first_code : Nat)
  | connectFail
  | cancelledAtWait
deriving DecidableEq, Repr

/-- Observable effects of one run of client_connected: the events put on
status_q in order, the tasks cancelled and awaited in order, the writer
sockets closed in order, and whether CancelledError was re-raised. -/
structure ConnResult where
  events : List Event
  cancelled_tasks : List Nat
  closed_socks : List String
  raised_cancel : Bool
deriving DecidableEq, Repr

/-- Embedding of client_connected (shim.py lines 107-173) for a connection
whose tasks get ids session (the accept task, line 112), c2k and k2c (the
two forwarders, lines 140-147).  On success it waits for the first exit
code, cancels and awaits both forwarders, closes both writers, posts
task_end for all three tasks and, when the code is nonzero, posts exit
(lines 149-167).  A failed outbound connect is caught by the broad except
(lines 170-173): logged and swallowed, nothing else happens.  Cancellation
while waiting is re-raised (lines 168-169). -/
def client_connected (session c2k k2c : Nat) : ConnectOutcome → ConnResult
  | ConnectOutcome.ok code =>
      { events := [Event.task_start session, Event.task_start c2k, Event.task_start k2c,
                   Event.task_end session, Event.task_end c2k, Event.task_end k2c] ++
                  (if code ≠ 0 then [Event.exit code] else []),
        cancelled_tasks := [c2k, k2c],
        closed_socks := ["client_writer", "kernel_writer"],
        raised_cancel := false }
  | ConnectOutcome.connectFail =>
      { events := [Event.task_start session],
        cancelled_tasks := [], closed_socks := [], raised_cancel := false }
  | ConnectOutcome.cancelledAtWait =>
      { events := [Event.task_start session, Event.task_start c2k, Event.task_start k2c],
        cancelled_tasks := [], closed_socks := [], raised_cancel := true }

/-! ## Relay port stop (RelayPort.client_server_stop, shim.py lines 181-185) -/

/-- State of one RelayPort relevant to stopping: the listening server
socket when one is open (client_server field), the log of listener sockets
closed so far, and the accepted connection pairs and forwarder tasks that
stop must leave alone. -/
structure RelayPortState where
  client_server : Option Nat
  closed_listeners : List Nat
  live_pairs : List Nat
  cancelled_pairs : List Nat
deriving DecidableEq, Repr

/-- Embedding of RelayPort.client_server_stop (shim.py lines 181-185):
if a server socket is open, close it and set the field to none; otherwise
do nothing. -/
def client_server_stop (s : RelayPortState) : RelayPortState :=
  match s.client_server with
  | some sock =>
      { s with client_server := none,
               closed_listeners := s.closed_listeners ++ [sock] }
  | none => s

/-! ## Session coordinator (kernel_run event loop, shim.py lines 333-364) -/

/-- Python set.add: append the element when absent. -/
def set_add (ts : List Nat) (t : Nat) : List Nat :=
  if t ∈ ts then ts else ts ++ [t]

/-- Python set.discard: remove the element, no error when absent. -/
def set_discard (ts : List Nat) (t : Nat) : List Nat :=
  ts.filter (fun x => x ≠ t)

/-- Coordinator loop state: the live task set and the high-water mark
task_cnt_max of its size. -/
structure CoordState where
  tasks : List Nat
  task_cnt_max : Nat
deriving DecidableEq, Repr

/-- Coordinator state at loop entry (shim.py lines 333-334). -/
def coord_init : CoordState := ⟨[], 0⟩

/-- One iteration of the kernel_run status loop (shim.py lines 335-351):
task_start adds the task and bumps the high-water mark; task_end discards
it and breaks with status 0 when the set is empty and the high-water mark
reached 10; exit breaks with the given status.  Returns the new state and
some status exactly when the loop breaks. -/
def coord_step (s : CoordState) : Event → CoordState × Option Nat
  | Event.task_start t =>
      let ts := set_add s.tasks t
      (⟨ts, max ts.length s.task_cnt_max⟩, none)
  | Event.task_end t =>
      let ts := set_discard s.tasks t
      (⟨ts, s.task_cnt_max⟩,
       if ts.length = 0 ∧ 10 ≤ s.task_cnt_max then some 0 else none)
  | Event.exit st => (s, some st)

/-- The kernel_run status loop run over a finite queue of events: returns
the state at the break point and some exit status, or none when the queue
is exhausted with the loop still waiting. -/
def kernel_run_loop : CoordState → List Event → CoordState × Option Nat
  | s, [] => (s, none)
  | s, e :: rest =>
      match coord_step s e with
      | (s1, some st) => (s1, some st)
      | (s1, none) => kernel_run_loop s1 rest

/-- The five relay port names (shim.py line 224). -/
def port_names : List String :=
  ["hb_port", "stdin_port", "shell_port", "iopub_port", "control_port"]

/-- Observable effects of the shutdown code after the loop breaks
(shim.py lines 356-364): every relay port stopped, every task still in
the live set cancelled and awaited, and the process exit status. -/
structure ShutdownResult where
  stopped_ports : List String
  cancelled_tasks : List Nat
  exit_code : Nat
deriving DecidableEq, Repr

/-- Embedding of the shutdown block (shim.py lines 356-364). -/
def kernel_run_shutdown (s : CoordState) (st : Nat) : ShutdownResult :=
  { stopped_ports := port_names, cancelled_tasks := s.tasks, exit_code := st }

/-- The coordinator phase of kernel_run (loop plus shutdown): some result
when the loop breaks on the given event queue, none when the queue runs
out first (the process would still be waiting on status_q). -/
def kernel_run_main (events : List Event) : Option ShutdownResult :=
  match kernel_run_loop coord_init events with
  | (s, some st) => some (kernel_run_shutdown s st)
  | (_, none) => none

/-! ## Port discovery polling (kernel_run, shim.py lines 292-308) -/

/-- One response to GET base_url/api/states/state_var: the HTTP status and,
when the JSON body contains the key state, the five port numbers decoded
from that JSON-encoded field (none models a body without a state key). -/
structure StateResponse where
  status : Nat
  state : Option (List (String × Nat))
deriving DecidableEq, Repr

/-- The poll succeeds exactly when the response has HTTP status 200 and its
body contains the state key (shim.py lines 297-299). -/
def poll_ok (r : StateResponse) : Bool :=
  r.status == 200 && r.state.isSome

/-- Delay slept after each unsuccessful poll (asyncio.sleep(0.5) at
shim.py line 308), in milliseconds. -/
def poll_delay_ms : Nat := 500

/-- Embedding of the polling loop (shim.py lines 292-308) over the
sequence of responses the server returns, carrying the number of delays
slept so far: on a successful poll it resolves to the decoded port map and
the delay count; otherwise it sleeps once and polls again; none means the
response sequence ran out with the loop still polling. -/
def discovery_poll : List StateResponse → Nat → Option (List (String × Nat) × Nat)
  | [], _ => none
  | r :: rest, delays =>
      if poll_ok r then some (r.state.getD [], delays)
      else discovery_poll rest (delays + 1)

/-! ## Outbound request body construction (kernel_run, shim.py lines 267-271) -/

/-- Python dict lookup on an association-list model of a dict. -/
def dict_lookup : List (String × String) → String → Option String
  | [], _ => none
  | p :: t, k => if p.1 = k then some p.2 else dict_lookup t k

/-- Python del d[k]: remove the binding of k. -/
def dict_del (m : List (String × String)) (k : String) : List (String × String) :=
  m.filter (fun p => p.1 ≠ k)

/-- Python d[k] = v: replace the value in place when the key is bound,
append the binding otherwise. -/
def dict_set (m : List (String × String)) (k v : String) : List (String × String) :=
  if (dict_lookup m k).isSome then
    m.map (fun p => if p.1 = k then (k, v) else p)
  else m ++ [(k, v)]

/-- The state-variable name built from the random discovery key tok
(shim.py line 270: secrets.token_hex(5) supplies tok). -/
def state_var_name (tok : String) : String :=
  "pyscript.jupyter_ports_" ++ tok

/-- Embedding of the kernel_config construction (shim.py lines 267-271):
copy the input config, delete the five port fields, then set state_var to
the tokenised name and ip to the configured remote host.  The copy makes
the original config untouched, which the pure model reflects by leaving
its argument unchanged. -/
def build_kernel_config (config : List (String × String)) (tok hass_host : String) :
    List (String × String) :=
  dict_set (dict_set (port_names.foldl dict_del config) "state_var" (state_var_name tok))
    "ip" hass_host

/-! ## Scenario used for claim C10: kernel side closes cleanly -/

/-- First completion code a connection handler receives when the
kernel-to-client forwarder hits end-of-stream first: the head of what that
forwarder posted to my_exit_q. -/
def kernel_eof_first_code : Nat :=
  ((forward_data_task k2c_exit_status [FwdStep.recv [] DrainResult.ok] fwd_init).1.posted).headD 0

/-- Events put on status_q by a connection (task ids 0, 1, 2) whose kernel
endpoint closes cleanly before anything else terminates. -/
def kernel_eof_close_events : List Event :=
  (client_connected 0 1 2 (ConnectOutcome.ok kernel_eof_first_code)).events

/-! ## Theorems -/

/-- C9: client_server_stop is idempotent: a second stop is a no-op (same
state, no further socket closed, no error path), and stop never touches
accepted connection pairs or forwarder tasks, only the listener field. -/
theorem client_server_stop_idempotent (s : RelayPortState) :
    client_server_stop (client_server_stop s) = client_server_stop s ∧
    (client_server_stop s).live_pairs = s.live_pairs ∧
    (client_server_stop s).cancelled_pairs = s.cancelled_pairs ∧
    (client_server_stop s).client_server = none := by
  cases s with
  | mk cs cl lp cp => cases cs <;> simp [client_server_stop]

/-- C2: on a connection whose outbound connect succeeded, once the first
completion code arrives the handler cancels both forwarders in order
(awaiting each), closes both writer sockets, posts exactly three task_end
events (accept session and the two forwarders), and posts an exit event
if and only if the code is nonzero. -/
theorem client_connected_ok_teardown (session c2k k2c code : Nat) :
    (client_connected session c2k k2c (ConnectOutcome.ok code)).cancelled_tasks = [c2k, k2c] ∧
    (client_connected session c2k k2c (ConnectOutcome.ok code)).closed_socks =
      ["client_writer", "kernel_writer"] ∧
    (client_connected session c2k k2c (ConnectOutcome.ok code)).events.filter is_end =
      [Event.task_end session, Event.task_end c2k, Event.task_end k2c] ∧
    (client_connected session c2k k2c (ConnectOutcome.ok code)).events.filter is_exit_ev =
      (if code ≠ 0 then [Event.exit code] else []) ∧
    (Event.exit code ∈ (client_connected session c2k k2c (ConnectOutcome.ok code)).events ↔
      code ≠ 0) := by
  by_cases hc : code = 0 <;>
    simp [client_connected, is_end, is_exit_ev, hc]

/-- C6 counterexample: a connection whose outbound connect fails emits
task_start for its accept session and never any task_end: the exception is
swallowed by the broad except and the handler returns without reporting. -/
theorem client_connected_connect_fail_no_end :
    Event.task_start 0 ∈ (client_connected 0 1 2 ConnectOutcome.connectFail).events ∧
    (client_connected 0 1 2 ConnectOutcome.connectFail).events.filter is_end = [] := by
  decide

/-- C6 amended: a handler whose outbound connect succeeds and that runs to
completion matches every task_start with exactly one task_end, in order;
a connection whose outbound connect fails emits only task_start for the
accept session (no task_end, ever); a handler cancelled while waiting
emits its three task_start events and no task_end. -/
theorem client_connected_start_end_matching (session c2k k2c code : Nat) :
    (client_connected session c2k k2c (ConnectOutcome.ok code)).events.filter is_end =
      ((client_connected session c2k k2c (ConnectOutcome.ok code)).events.filter is_start).map
        end_of ∧
    (client_connected session c2k k2c ConnectOutcome.connectFail).events =
      [Event.task_start session] ∧
    (client_connected session c2k k2c ConnectOutcome.cancelledAtWait).events.filter is_end =
      [] := by
  by_cases hc : code = 0 <;>
    simp [client_connected, is_end, is_start, end_of, hc]

/-- What a forwarder run appends to the exit queue, by outcome: the
assigned code on clean end-of-stream, 1 on a caught exception, nothing on
cancellation or while still looping. -/
def outcome_post (exit_status : Nat) : FwdOutcome → List Nat
  | FwdOutcome.eofDone => [exit_status]
  | FwdOutcome.errDone => [1]
  | FwdOutcome.cancelled => []
  | FwdOutcome.pending => []

/-- Helper: a forwarder run extends the posted list of its start state by
exactly outcome_post of how it ended. -/
theorem forward_data_task_posted (es : Nat) :
    ∀ (trace : List FwdStep) (s : FwdState),
      (forward_data_task es trace s).1.posted =
        s.posted ++ outcome_post es (forward_data_task es trace s).2 := by
  intro trace
  induction trace with
  | nil => intro s; simp [forward_data_task, outcome_post]
  | cons e rest ih =>
    intro s
    cases e with
    | readErr => simp [forward_data_task, outcome_post]
    | readCancel => simp [forward_data_task, outcome_post]
    | recv bs d =>
      by_cases hb : bs.isEmpty
      · simp [forward_data_task, hb, outcome_post]
      · cases d with
        | ok => simpa [forward_data_task, hb] using ih _
        | err => simp [forward_data_task, hb, outcome_post]
        | cancelled => simp [forward_data_task, hb, outcome_post]

/-- C5: over any environment trace, a forwarder posts to its completion
channel at most once, and the posted value is fixed by how the run ends:
the assigned terminal code on a zero-length read, 1 on a caught I/O
exception, and nothing at all when cancellation is re-raised (or while the
loop is still running). -/
theorem forward_data_task_posts_once (es : Nat) (trace : List FwdStep) :
    (forward_data_task es trace fwd_init).1.posted =
      outcome_post es (forward_data_task es trace fwd_init).2 ∧
    (forward_data_task es trace fwd_init).1.posted.length ≤ 1 ∧
    ((forward_data_task es trace fwd_init).2 = FwdOutcome.cancelled →
      (forward_data_task es trace fwd_init).1.posted = []) := by
  have h0 : (forward_data_task es trace fwd_init).1.posted =
      outcome_post es (forward_data_task es trace fwd_init).2 := by
    simpa [fwd_init] using forward_data_task_posted es trace fwd_init
  refine ⟨h0, ?_, ?_⟩
  · rw [h0]; cases (forward_data_task es trace fwd_init).2 <;> simp [outcome_post]
  · intro hc; rw [h0, hc]; simp [outcome_post]

/-- Helper: a read on a nonempty source stream returns a nonempty chunk. -/
theorem reader_read_chunk_ne (a x : Nat) (xs : List Nat) :
    ((reader_read a (x :: xs)).1).isEmpty = false := by
  obtain ⟨m, hm⟩ : ∃ m, min 8192 (a + 1) = m + 1 :=
    ⟨min 8192 (a + 1) - 1, by omega⟩
  simp [reader_read, hm]

/-- Helper: once the source stream is exhausted the clean trace is a single
end-of-stream read. -/
theorem mkCleanTrace_nil (sched : List Nat) :
    mkCleanTrace [] sched = [FwdStep.recv [] DrainResult.ok] := by
  cases sched <;> simp [mkCleanTrace]

/-- Helper: the forwarder step on a single end-of-stream read records the
empty chunk, posts the assigned code and ends cleanly. -/
theorem forward_eof_step (es : Nat) (s : FwdState) :
    forward_data_task es [FwdStep.recv [] DrainResult.ok] s =
      ({ s with chunks := s.chunks ++ [[]], posted := s.posted ++ [es] },
       FwdOutcome.eofDone) := by
  simp [forward_data_task]

/-- Helper: on a clean trace that reaches end-of-stream the forwarder
writes its start state plus exactly the source stream, posts exactly the
assigned code, accumulates chunks joining to the stream, and every chunk
it adds is at most 8192 bytes long. -/
theorem forward_clean_spec (es : Nat) :
    ∀ (sched buf : List Nat) (s : FwdState),
      (forward_data_task es (mkCleanTrace buf sched) s).2 = FwdOutcome.eofDone →
      (forward_data_task es (mkCleanTrace buf sched) s).1.written = s.written ++ buf ∧
      (forward_data_task es (mkCleanTrace buf sched) s).1.posted = s.posted ++ [es] ∧
      (forward_data_task es (mkCleanTrace buf sched) s).1.chunks.flatten =
        s.chunks.flatten ++ buf ∧
      ∀ c ∈ (forward_data_task es (mkCleanTrace buf sched) s).1.chunks,
        c ∈ s.chunks ∨ c.length ≤ 8192 := by
  intro sched
  induction sched with
  | nil =>
    intro buf s h
    cases buf with
    | nil =>
      rw [mkCleanTrace_nil, forward_eof_step]
      refine ⟨by simp, by simp, by simp, ?_⟩
      intro c hc
      simp at hc
      rcases hc with hc | rfl
      · exact Or.inl hc
      · exact Or.inr (by simp)
    | cons x xs =>
      simp [mkCleanTrace, forward_data_task] at h
  | cons a rest ih =>
    intro buf s h
    cases buf with
    | nil =>
      rw [mkCleanTrace_nil, forward_eof_step]
      refine ⟨by simp, by simp, by simp, ?_⟩
      intro c hc
      simp at hc
      rcases hc with hc | rfl
      · exact Or.inl hc
      · exact Or.inr (by simp)
    | cons x xs =>
      have hchunk : ((reader_read a (x :: xs)).1).isEmpty = false :=
        reader_read_chunk_ne a x xs
      have hlen : ((reader_read a (x :: xs)).1).length ≤ 8192 := by
        simp only [reader_read, List.length_take]
        omega
      have hsplit : (reader_read a (x :: xs)).1 ++ (reader_read a (x :: xs)).2 = x :: xs := by
        simp [reader_read]
      have htr : mkCleanTrace (x :: xs) (a :: rest) =
          FwdStep.recv (reader_read a (x :: xs)).1 DrainResult.ok ::
            mkCleanTrace (reader_read a (x :: xs)).2 rest := by
        simp [mkCleanTrace]
      have hstep : forward_data_task es (mkCleanTrace (x :: xs) (a :: rest)) s =
          forward_data_task es (mkCleanTrace (reader_read a (x :: xs)).2 rest)
            { s with chunks := s.chunks ++ [(reader_read a (x :: xs)).1],
                     written := s.written ++ (reader_read a (x :: xs)).1 } := by
        rw [htr]
        simp [forward_data_task, hchunk]
      rw [hstep] at h ⊢
      obtain ⟨hw, hp, hj, hm⟩ := ih (reader_read a (x :: xs)).2 _ h
      refine ⟨?_, ?_, ?_, ?_⟩
      · rw [hw]
        simp [List.append_assoc, hsplit]
      · simpa using hp
      · rw [hj]
        simp [List.append_assoc, hsplit]
      · intro c hc
        rcases hm c hc with hcs | hlc
        · simp at hcs
          rcases hcs with hcs | rfl
          · exact Or.inl hcs
          · exact Or.inr hlen
        · exact Or.inr hlc

/-- C1: every run of a duplex forwarder that ends by a clean end-of-stream
writes to the sink exactly the source stream, which is the in-order
concatenation of the chunks read (no loss, duplication or reordering),
every read returning at most 8192 bytes, with each chunk written in full
and drained before the next read; the assigned terminal code is posted. -/
theorem forward_data_task_clean_eof (es : Nat) (buf sched : List Nat)
    (h : (forward_data_task es (mkCleanTrace buf sched) fwd_init).2 = FwdOutcome.eofDone) :
    (forward_data_task es (mkCleanTrace buf sched) fwd_init).1.written = buf ∧
    (forward_data_task es (mkCleanTrace buf sched) fwd_init).1.written =
      (forward_data_task es (mkCleanTrace buf sched) fwd_init).1.chunks.flatten ∧
    (forward_data_task es (mkCleanTrace buf sched) fwd_init).1.posted = [es] ∧
    ∀ c ∈ (forward_data_task es (mkCleanTrace buf sched) fwd_init).1.chunks,
      c.length ≤ 8192 := by
  obtain ⟨hw, hp, hj, hm⟩ := forward_clean_spec es sched buf fwd_init h
  have hw2 : (forward_data_task es (mkCleanTrace buf sched) fwd_init).1.written = buf := by
    simpa [fwd_init] using hw
  have hj2 : (forward_data_task es (mkCleanTrace buf sched) fwd_init).1.chunks.flatten = buf := by
    simpa [fwd_init] using hj
  have hp2 : (forward_data_task es (mkCleanTrace buf sched) fwd_init).1.posted = [es] := by
    simpa [fwd_init] using hp
  refine ⟨hw2, by rw [hw2, hj2], hp2, ?_⟩
  intro c hc
  rcases hm c hc with hcs | hlc
  · simp [fwd_init] at hcs
  · exact hlc

/-- Witness for C1 at a concrete clean run: source stream 1 2 3 delivered
in two reads then end-of-stream. -/
theorem forward_data_task_clean_eof_witness :
    (forward_data_task 0 (mkCleanTrace [1, 2, 3] [0, 4]) fwd_init).2 = FwdOutcome.eofDone ∧
    ((forward_data_task 0 (mkCleanTrace [1, 2, 3] [0, 4]) fwd_init).1.written = [1, 2, 3] ∧
     (forward_data_task 0 (mkCleanTrace [1, 2, 3] [0, 4]) fwd_init).1.written =
       (forward_data_task 0 (mkCleanTrace [1, 2, 3] [0, 4]) fwd_init).1.chunks.flatten ∧
     (forward_data_task 0 (mkCleanTrace [1, 2, 3] [0, 4]) fwd_init).1.posted = [0] ∧
     ∀ c ∈ (forward_data_task 0 (mkCleanTrace [1, 2, 3] [0, 4]) fwd_init).1.chunks,
       c.length ≤ 8192) :=
  ⟨by decide, forward_data_task_clean_eof 0 [1, 2, 3] [0, 4] (by decide)⟩

/-- Helper: on a queue without exit events, any break of the status loop
has status 0, an empty task set and a high-water mark of at least 10 at
the break state. -/
theorem kernel_run_loop_auto (events : List Event) :
    ∀ (s : CoordState), (∀ e ∈ events, is_exit_ev e = false) →
      ∀ st, (kernel_run_loop s events).2 = some st →
        st = 0 ∧ (kernel_run_loop s events).1.tasks = [] ∧
          10 ≤ (kernel_run_loop s events).1.task_cnt_max := by
  induction events with
  | nil =>
    intro s h st hst
    simp [kernel_run_loop] at hst
  | cons e rest ih =>
    intro s h st hst
    cases e with
    | task_start t =>
      have hu : kernel_run_loop s (Event.task_start t :: rest) =
          kernel_run_loop
            ⟨set_add s.tasks t, max (set_add s.tasks t).length s.task_cnt_max⟩ rest := by
        simp [kernel_run_loop, coord_step]
      rw [hu] at hst ⊢
      exact ih _ (fun x hx => h x (List.mem_cons_of_mem _ hx)) st hst
    | task_end t =>
      by_cases hcond : set_discard s.tasks t = [] ∧ 10 ≤ s.task_cnt_max
      · have hu : kernel_run_loop s (Event.task_end t :: rest) =
            (⟨set_discard s.tasks t, s.task_cnt_max⟩, some 0) := by
          simp [kernel_run_loop, coord_step, hcond.1, hcond.2]
        rw [hu] at hst ⊢
        simp only [Option.some.injEq] at hst
        exact ⟨hst.symm, hcond.1, hcond.2⟩
      · have hu : kernel_run_loop s (Event.task_end t :: rest) =
            kernel_run_loop ⟨set_discard s.tasks t, s.task_cnt_max⟩ rest := by
          simp [kernel_run_loop, coord_step, hcond]
        rw [hu] at hst ⊢
        exact ih _ (fun x hx => h x (List.mem_cons_of_mem _ hx)) st hst
    | exit st2 =>
      have hx := h (Event.exit st2) (List.mem_cons_self _ _)
      simp [is_exit_ev] at hx

/-- C3: on a queue of task_start and task_end events (no exit event), the
status loop terminates with status 0 only at a point where the live task
set is empty and its high-water mark has reached at least 10; and a
task_end event breaks the loop exactly when it leaves the set empty with
the high-water mark at least 10 — so while the high-water mark stays
below 10 the loop never auto-exits, however many events it processes. -/
theorem kernel_run_auto_exit (events : List Event) (st : Nat) (s : CoordState) (t : Nat)
    (hne : ∀ e ∈ events, is_exit_ev e = false)
    (hbrk : (kernel_run_loop coord_init events).2 = some st) :
    (st = 0 ∧ (kernel_run_loop coord_init events).1.tasks = [] ∧
      10 ≤ (kernel_run_loop coord_init events).1.task_cnt_max) ∧
    ((coord_step s (Event.task_end t)).2 = some 0 ↔
      (set_discard s.tasks t = [] ∧ 10 ≤ s.task_cnt_max)) := by
  refine ⟨kernel_run_loop_auto events coord_init hne st hbrk, ?_, ?_⟩
  · intro hsome
    simpa [coord_step] using hsome
  · intro hc
    simp [coord_step, hc.1, hc.2]

/-- Witness for C3: ten task_start events followed by ten task_end events
make the loop auto-exit with status 0. -/
theorem kernel_run_auto_exit_witness :
    (∀ e ∈ (List.range 10).map Event.task_start ++ (List.range 10).map Event.task_end,
        is_exit_ev e = false) ∧
    (kernel_run_loop coord_init
        ((List.range 10).map Event.task_start ++ (List.range 10).map Event.task_end)).2 =
      some 0 ∧
    ((0 = 0 ∧
      (kernel_run_loop coord_init
          ((List.range 10).map Event.task_start ++
            (List.range 10).map Event.task_end)).1.tasks = [] ∧
      10 ≤ (kernel_run_loop coord_init
          ((List.range 10).map Event.task_start ++
            (List.range 10).map Event.task_end)).1.task_cnt_max) ∧
     ((coord_step ⟨[5], 12⟩ (Event.task_end 5)).2 = some 0 ↔
       (set_discard [5] 5 = [] ∧ 10 ≤ 12))) :=
  ⟨by decide, by decide,
   kernel_run_auto_exit _ 0 ⟨[5], 12⟩ 5 (by decide) (by decide)⟩

/-- Helper: when the status loop exhausts a queue without breaking,
appending more events continues from the reached state. -/
theorem kernel_run_loop_append (l2 : List Event) :
    ∀ (pre : List Event) (s : CoordState), (kernel_run_loop s pre).2 = none →
      kernel_run_loop s (pre ++ l2) = kernel_run_loop (kernel_run_loop s pre).1 l2 := by
  intro pre
  induction pre with
  | nil => intro s _; simp [kernel_run_loop]
  | cons e rest ih =>
    intro s h
    cases hstep : coord_step s e with
    | mk s1 r =>
      cases r with
      | some st =>
        exfalso
        simp only [kernel_run_loop, hstep] at h
        simp at h
      | none =>
        have hh : (kernel_run_loop s1 rest).2 = none := by
          simpa [kernel_run_loop, hstep] using h
        calc kernel_run_loop s ((e :: rest) ++ l2)
            = kernel_run_loop s1 (rest ++ l2) := by
              simp [kernel_run_loop, hstep]
          _ = kernel_run_loop (kernel_run_loop s1 rest).1 l2 := ih s1 hh
          _ = kernel_run_loop (kernel_run_loop s (e :: rest)).1 l2 := by
              simp [kernel_run_loop, hstep]

/-- Helper: an exit event breaks the loop at once with its status and an
unchanged state. -/
theorem kernel_run_loop_exit_ev (s : CoordState) (st : Nat) :
    kernel_run_loop s [Event.exit st] = (s, some st) := by
  simp [kernel_run_loop, coord_step]

/-- C7: if the status loop has consumed a queue prefix without breaking,
an exit(status) event makes it leave the loop immediately with that
status, whatever the live task set holds; shutdown then stops all five
relay ports, cancels exactly the tasks still in the live set, and the
process exits with exactly the recorded status. -/
theorem kernel_run_exit_event (pre : List Event) (st : Nat)
    (h : (kernel_run_loop coord_init pre).2 = none) :
    kernel_run_loop coord_init (pre ++ [Event.exit st]) =
      ((kernel_run_loop coord_init pre).1, some st) ∧
    kernel_run_main (pre ++ [Event.exit st]) =
      some { stopped_ports := port_names,
             cancelled_tasks := (kernel_run_loop coord_init pre).1.tasks,
             exit_code := st } := by
  have h1 := kernel_run_loop_append [Event.exit st] pre coord_init h
  rw [kernel_run_loop_exit_ev] at h1
  refine ⟨h1, ?_⟩
  simp [kernel_run_main, h1, kernel_run_shutdown]

/-- Witness for C7: one task has started (the set is nonempty) and an
exit(3) event arrives. -/
theorem kernel_run_exit_event_witness :
    (kernel_run_loop coord_init [Event.task_start 7]).2 = none ∧
    (kernel_run_loop coord_init ([Event.task_start 7] ++ [Event.exit 3]) =
      ((kernel_run_loop coord_init [Event.task_start 7]).1, some 3) ∧
     kernel_run_main ([Event.task_start 7] ++ [Event.exit 3]) =
       some { stopped_ports := port_names,
              cancelled_tasks := (kernel_run_loop coord_init [Event.task_start 7]).1.tasks,
              exit_code := 3 }) :=
  ⟨by decide, kernel_run_exit_event [Event.task_start 7] 3 (by decide)⟩

/-- C10: when the kernel endpoint closes cleanly first, the kernel-to-client
forwarder (assigned terminal code 1) posts 1 on its zero-length read, the
handler receives 1 as the first completion code and posts exit(1), and the
coordinator leaves the loop and the process exits with status 1, not 0. -/
theorem kernel_eof_close_exits_one :
    k2c_exit_status = 1 ∧
    (forward_data_task k2c_exit_status [FwdStep.recv [] DrainResult.ok] fwd_init).1.posted =
      [1] ∧
    kernel_eof_first_code = 1 ∧
    Event.exit 1 ∈ kernel_eof_close_events ∧
    kernel_run_main kernel_eof_close_events =
      some { stopped_ports := port_names, cancelled_tasks := [], exit_code := 1 } := by
  refine ⟨rfl, by decide, by decide, by decide, by decide⟩

/-- Helper: failing polls pass through the loop, each adding one delay. -/
theorem discovery_poll_skip (l : List StateResponse) :
    ∀ (pre : List StateResponse) (d : Nat), (∀ x ∈ pre, poll_ok x = false) →
      discovery_poll (pre ++ l) d = discovery_poll l (d + pre.length) := by
  intro pre
  induction pre with
  | nil => intro d _; simp
  | cons r rest ih =>
    intro d h
    have hr : poll_ok r = false := h r (List.mem_cons_self _ _)
    rw [List.cons_append,
      show discovery_poll (r :: (rest ++ l)) d = discovery_poll (rest ++ l) (d + 1) from by
        simp [discovery_poll, hr],
      ih (d + 1) (fun x hx => h x (List.mem_cons_of_mem _ hx))]
    congr 1
    simp
    omega

/-- Helper: a sequence of failing polls never resolves, however long. -/
theorem discovery_poll_all_fail :
    ∀ (xs : List StateResponse) (d : Nat), (∀ x ∈ xs, poll_ok x = false) →
      discovery_poll xs d = none := by
  intro xs
  induction xs with
  | nil => intro d _; rfl
  | cons r rest ih =>
    intro d h
    have hr : poll_ok r = false := h r (List.mem_cons_self _ _)
    simp [discovery_poll, hr]
    exact ih (d + 1) (fun x hx => h x (List.mem_cons_of_mem _ hx))

/-- C4: port discovery resolves exactly on the first response with HTTP
status 200 whose body carries the state key, returning the ports decoded
from that field; a run whose first n polls fail and whose next poll
succeeds incurs exactly n delays of 500 ms (zero when the first poll
succeeds), and an all-failing response sequence of any length leaves the
loop still polling (no iteration bound). -/
theorem discovery_poll_spec (pre rest : List StateResponse) (r x : StateResponse)
    (m : List (String × Nat))
    (hpre : ∀ y ∈ pre, poll_ok y = false)
    (hst : r.status = 200) (hm : r.state = some m) :
    discovery_poll (pre ++ r :: rest) 0 = some (m, pre.length) ∧
    discovery_poll pre 0 = none ∧
    (poll_ok x = true ↔ (x.status = 200 ∧ x.state.isSome = true)) ∧
    poll_delay_ms = 500 := by
  have hok : poll_ok r = true := by simp [poll_ok, hst, hm]
  refine ⟨?_, discovery_poll_all_fail pre 0 hpre, ?_, rfl⟩
  · rw [discovery_poll_skip (r :: rest) pre 0 hpre]
    simp [discovery_poll, hok, hm]
  · simp [poll_ok]

/-- Witness for C4, following the spec scenario: two polls that return
HTTP 200 without a state key, then a poll carrying the five ports. -/
theorem discovery_poll_spec_witness :
    (∀ y ∈ [StateResponse.mk 200 none, StateResponse.mk 200 none], poll_ok y = false) ∧
    (StateResponse.mk 200 (some [("hb_port", 9001), ("stdin_port", 9002), ("shell_port", 9003),
        ("iopub_port", 9004), ("control_port", 9005)])).status = 200 ∧
    (StateResponse.mk 200 (some [("hb_port", 9001), ("stdin_port", 9002), ("shell_port", 9003),
        ("iopub_port", 9004), ("control_port", 9005)])).state =
      some [("hb_port", 9001), ("stdin_port", 9002), ("shell_port", 9003),
        ("iopub_port", 9004), ("control_port", 9005)] ∧
    (discovery_poll ([StateResponse.mk 200 none, StateResponse.mk 200 none] ++
        StateResponse.mk 200 (some [("hb_port", 9001), ("stdin_port", 9002),
          ("shell_port", 9003), ("iopub_port", 9004), ("control_port", 9005)]) :: []) 0 =
      some ([("hb_port", 9001), ("stdin_port", 9002), ("shell_port", 9003),
        ("iopub_port", 9004), ("control_port", 9005)],
        [StateResponse.mk 200 none, StateResponse.mk 200 none].length) ∧
     discovery_poll [StateResponse.mk 200 none, StateResponse.mk 200 none] 0 = none ∧
     (poll_ok (StateResponse.mk 404 none) = true ↔
       ((StateResponse.mk 404 none).status = 200 ∧
         (StateResponse.mk 404 none).state.isSome = true)) ∧
     poll_delay_ms = 500) :=
  ⟨by decide, by decide, by decide,
   discovery_poll_spec [StateResponse.mk 200 none, StateResponse.mk 200 none] []
     (StateResponse.mk 200 (some [("hb_port", 9001), ("stdin_port", 9002), ("shell_port", 9003),
        ("iopub_port", 9004), ("control_port", 9005)]))
     (StateResponse.mk 404 none)
     [("hb_port", 9001), ("stdin_port", 9002), ("shell_port", 9003),
        ("iopub_port", 9004), ("control_port", 9005)]
     (by decide) (by decide) (by decide)⟩

/-- Helper: dict_lookup over an append tries the left map first. -/
theorem dict_lookup_append (m l2 : List (String × String)) (q : String) :
    dict_lookup (m ++ l2) q =
      match dict_lookup m q with
      | some v => some v
      | none => dict_lookup l2 q := by
  induction m with
  | nil => simp [dict_lookup]
  | cons p t ih =>
    by_cases hp : p.1 = q <;> simp [dict_lookup, hp, ih]

/-- Helper: a deleted key is gone. -/
theorem dict_lookup_del_self (m : List (String × String)) (k : String) :
    dict_lookup (dict_del m k) k = none := by
  induction m with
  | nil => rfl
  | cons p t ih =>
    by_cases hp : p.1 = k
    · simpa [dict_del, List.filter_cons, hp] using ih
    · simpa [dict_del, dict_lookup, List.filter_cons, hp] using ih

/-- Helper: deleting one key leaves the others unchanged. -/
theorem dict_lookup_del_other (m : List (String × String)) (k q : String) (h : q ≠ k) :
    dict_lookup (dict_del m k) q = dict_lookup m q := by
  induction m with
  | nil => rfl
  | cons p t ih =>
    by_cases hp : p.1 = k
    · rw [show dict_del (p :: t) k = dict_del t k from by
        simp [dict_del, List.filter_cons, hp], ih]
      simp [dict_lookup, hp, Ne.symm h]
    · rw [show dict_del (p :: t) k = p :: dict_del t k from by
        simp [dict_del, List.filter_cons, hp]]
      simp [dict_lookup, ih]

/-- Helper: looking up any key after the delete loop over a key list. -/
theorem dict_lookup_foldl_del (ks : List String) :
    ∀ (m : List (String × String)) (q : String),
      dict_lookup (ks.foldl dict_del m) q =
        if q ∈ ks then none else dict_lookup m q := by
  induction ks with
  | nil => intro m q; simp
  | cons k t ih =>
    intro m q
    rw [List.foldl_cons, ih]
    by_cases hq : q ∈ t
    · simp [hq]
    · by_cases hk : q = k
      · subst hk
        simp [hq, dict_lookup_del_self]
      · simp [hq, hk, dict_lookup_del_other m k q hk]

/-- Helper: in-place replacement makes the assigned key map to the new
value when it was bound. -/
theorem dict_lookup_map_replace (m : List (String × String)) (k v : String)
    (h : (dict_lookup m k).isSome = true) :
    dict_lookup (m.map (fun p => if p.1 = k then (k, v) else p)) k = some v := by
  induction m with
  | nil => simp [dict_lookup] at h
  | cons p t ih =>
    by_cases hp : p.1 = k
    · simp [dict_lookup, hp]
    · simp [dict_lookup, hp] at h ⊢
      exact ih h

/-- Helper: in-place replacement of one key leaves the others unchanged. -/
theorem dict_lookup_map_replace_other (m : List (String × String)) (k q v : String)
    (h : q ≠ k) :
    dict_lookup (m.map (fun p => if p.1 = k then (k, v) else p)) q = dict_lookup m q := by
  induction m with
  | nil => rfl
  | cons p t ih =>
    by_cases hp : p.1 = k
    · simp [dict_lookup, hp, Ne.symm h, ih]
    · by_cases hq : p.1 = q <;> simp [dict_lookup, hp, hq, h, ih]

/-- Helper: after assignment the key maps to the assigned value. -/
theorem dict_lookup_set_self (m : List (String × String)) (k v : String) :
    dict_lookup (dict_set m k v) k = some v := by
  by_cases h : (dict_lookup m k).isSome = true
  · simp only [dict_set, h, if_true]
    exact dict_lookup_map_replace m k v h
  · have hn : dict_lookup m k = none := by
      cases hc : dict_lookup m k with
      | none => rfl
      | some w => simp [hc] at h
    simp only [dict_set, hn, Option.isSome_none, Bool.false_eq_true, if_false]
    rw [dict_lookup_append, hn]
    simp [dict_lookup]

/-- Helper: assignment to one key leaves the others unchanged. -/
theorem dict_lookup_set_other (m : List (String × String)) (k q v : String) (h : q ≠ k) :
    dict_lookup (dict_set m k v) q = dict_lookup m q := by
  by_cases hs : (dict_lookup m k).isSome = true
  · simp only [dict_set, hs, if_true]
    exact dict_lookup_map_replace_other m k q v h
  · have hn : dict_lookup m k = none := by
      cases hc : dict_lookup m k with
      | none => rfl
      | some w => simp [hc] at hs
    simp only [dict_set, hn, Option.isSome_none, Bool.false_eq_true, if_false]
    rw [dict_lookup_append]
    cases hq : dict_lookup m q with
    | none => simp [dict_lookup, Ne.symm h]
    | some w => simp

/-- Helper: every one of the five port keys is absent from the built
request body. -/
theorem build_kernel_config_port_lookup (config : List (String × String))
    (tok hass_host : String) (p : String) (hp : p ∈ port_names) :
    dict_lookup (build_kernel_config config tok hass_host) p = none := by
  have hip : p ≠ "ip" := by
    simp [port_names] at hp
    rcases hp with rfl | rfl | rfl | rfl | rfl <;> decide
  have hsv : p ≠ "state_var" := by
    simp [port_names] at hp
    rcases hp with rfl | rfl | rfl | rfl | rfl <;> decide
  rw [build_kernel_config, dict_lookup_set_other _ _ _ _ hip,
    dict_lookup_set_other _ _ _ _ hsv, dict_lookup_foldl_del]
  simp [hp]

/-- C8: the outbound discovery request body is the input connection map
with exactly the five port keys removed and with state_var bound to the
tokenised name and ip bound to the configured remote host; every other
key still looks up its original value.  The code mutates only a copy of
the input map (config.copy() at shim.py line 267), which the pure model
reflects: build_kernel_config leaves its argument untouched. -/
theorem build_kernel_config_spec (config : List (String × String))
    (tok hass_host k : String)
    (hk1 : k ∉ port_names) (hk2 : k ≠ "state_var") (hk3 : k ≠ "ip") :
    dict_lookup (build_kernel_config config tok hass_host) "hb_port" = none ∧
    dict_lookup (build_kernel_config config tok hass_host) "stdin_port" = none ∧
    dict_lookup (build_kernel_config config tok hass_host) "shell_port" = none ∧
    dict_lookup (build_kernel_config config tok hass_host) "iopub_port" = none ∧
    dict_lookup (build_kernel_config config tok hass_host) "control_port" = none ∧
    dict_lookup (build_kernel_config config tok hass_host) "state_var" =
      some (state_var_name tok) ∧
    dict_lookup (build_kernel_config config tok hass_host) "ip" = some hass_host ∧
    dict_lookup (build_kernel_config config tok hass_host) k = dict_lookup config k := by
  refine ⟨?_, ?_, ?_, ?_, ?_, ?_, ?_, ?_⟩
  · exact build_kernel_config_port_lookup config tok hass_host _ (by simp [port_names])
  · exact build_kernel_config_port_lookup config tok hass_host _ (by simp [port_names])
  · exact build_kernel_config_port_lookup config tok hass_host _ (by simp [port_names])
  · exact build_kernel_config_port_lookup config tok hass_host _ (by simp [port_names])
  · exact build_kernel_config_port_lookup config tok hass_host _ (by simp [port_names])
  · rw [build_kernel_config, dict_lookup_set_other _ _ _ _ (by decide),
      dict_lookup_set_self]
  · rw [build_kernel_config, dict_lookup_set_self]
  · rw [build_kernel_config, dict_lookup_set_other _ _ _ _ hk3,
      dict_lookup_set_other _ _ _ _ hk2, dict_lookup_foldl_del]
    simp [hk1]

/-- Witness for C8 on a concrete jupyter connection map. -/
theorem build_kernel_config_spec_witness :
    ("transport" ∉ port_names ∧ "transport" ≠ "state_var" ∧ "transport" ≠ "ip") ∧
    (dict_lookup (build_kernel_config
        [("ip", "127.0.0.1"), ("transport", "tcp"), ("hb_port", "1"), ("stdin_port", "2"),
         ("shell_port", "3"), ("iopub_port", "4"), ("control_port", "5"), ("key", "abc")]
        "ff00ff00ff" "localhost") "hb_port" = none ∧
     dict_lookup (build_kernel_config
        [("ip", "127.0.0.1"), ("transport", "tcp"), ("hb_port", "1"), ("stdin_port", "2"),
         ("shell_port", "3"), ("iopub_port", "4"), ("control_port", "5"), ("key", "abc")]
        "ff00ff00ff" "localhost") "stdin_port" = none ∧
     dict_lookup (build_kernel_config
        [("ip", "127.0.0.1"), ("transport", "tcp"), ("hb_port", "1"), ("stdin_port", "2"),
         ("shell_port", "3"), ("iopub_port", "4"), ("control_port", "5"), ("key", "abc")]
        "ff00ff00ff" "localhost") "shell_port" = none ∧
     dict_lookup (build_kernel_config
        [("ip", "127.0.0.1"), ("transport", "tcp"), ("hb_port", "1"), ("stdin_port", "2"),
         ("shell_port", "3"), ("iopub_port", "4"), ("control_port", "5"), ("key", "abc")]
        "ff00ff00ff" "localhost") "iopub_port" = none ∧
     dict_lookup (build_kernel_config
        [("ip", "127.0.0.1"), ("transport", "tcp"), ("hb_port", "1"), ("stdin_port", "2"),
         ("shell_port", "3"), ("iopub_port", "4"), ("control_port", "5"), ("key", "abc")]
        "ff00ff00ff" "localhost") "control_port" = none ∧
     dict_lookup (build_kernel_config
        [("ip", "127.0.0.1"), ("transport", "tcp"), ("hb_port", "1"), ("stdin_port", "2"),
         ("shell_port", "3"), ("iopub_port", "4"), ("control_port", "5"), ("key", "abc")]
        "ff00ff00ff" "localhost") "state_var" = some (state_var_name "ff00ff00ff") ∧
     dict_lookup (build_kernel_config
        [("ip", "127.0.0.1"), ("transport", "tcp"), ("hb_port", "1"), ("stdin_port", "2"),
         ("shell_port", "3"), ("iopub_port", "4"), ("control_port", "5"), ("key", "abc")]
        "ff00ff00ff" "localhost") "ip" = some "localhost" ∧
     dict_lookup (build_kernel_config
        [("ip", "127.0.0.1"), ("transport", "tcp"), ("hb_port", "1"), ("stdin_port", "2"),
         ("shell_port", "3"), ("iopub_port", "4"), ("control_port", "5"), ("key", "abc")]
        "ff00ff00ff" "localhost") "transport" =
       dict_lookup
        [("ip", "127.0.0.1"), ("transport", "tcp"), ("hb_port", "1"), ("stdin_port", "2"),
         ("shell_port", "3"), ("iopub_port", "4"), ("control_port", "5"), ("key", "abc")]
        "transport") :=
  ⟨⟨by decide, by decide, by decide⟩,
   build_kernel_config_spec
     [("ip", "127.0.0.1"), ("transport", "tcp"), ("hb_port", "1"), ("stdin_port", "2"),
      ("shell_port", "3"), ("iopub_port", "4"), ("control_port", "5"), ("key", "abc")]
     "ff00ff00ff" "localhost" "transport" (by decide) (by decide) (by decide)⟩
